import Mathlib

/-!
# Verification of the GazeDetector scanning protocol

Shallow embedding of the scanner module (the `scanner` function and its inner
`scanMenu` state machine) together with the parts of the menu/button
collaborators that the scanner observes (`detector.js`: `selectsDropdownMenu`,
menu `getInfo`/`getButtons`; the generic menu constructor: `getNButtons`,
`getInfo`).

Modelling conventions:

* Wall-clock instants and gaze durations are `Int` milliseconds
  (`new Date()` values); a JavaScript `undefined` numeric/handle/object
  variable is `Option.none`, and `undefined - x = NaN` is modelled by an
  `Option Int` elapsed time whose comparisons (`optGe`, `optLt`) are `false`
  on `none`, exactly as every comparison with `NaN` is false.
* `setTimeout` returns a fresh handle (`nextId`) and records a pending
  `Timer`; `clearTimeout h` removes any pending timer with handle `h` and is
  a no-op on `none` (i.e. `clearTimeout(undefined)`) or on a stale handle.
* Buttons are referred to by their index in the scanned menu's button list;
  distinct buttons are distinct objects in the source, so index equality
  models the `===`/`!==` object-identity tests.
* Observable interactions with collaborators (button `toggle`/`announce`/
  `pressed`, `cb()`, listener (un)registration, `detector.idleMode()`,
  `speaker.beep`, `speaker.speakSync`) are recorded in an `Effect` list, in
  program order.
* A handler that would throw a `TypeError` in JavaScript (a method call on
  `undefined`, or indexing a button that does not exist) aborts with
  `Abort.crash`; bounded-recursion drivers abort with `Abort.outOfFuel` when
  given too little fuel, which never happens on the runs the theorems are
  about.
-/

namespace GazeDetector

/-! ## Constants (scanner, lines 25-29) -/

/-- `N_LOOPS = 2`: loop through a menu twice before exiting. -/
def N_LOOPS : Nat := 2

/-- `SHORT_GAZE_TIME = 200` ms. -/
def SHORT_GAZE_TIME : Int := 200

/-- `LONG_GAZE_TIME = 2000` ms. -/
def LONG_GAZE_TIME : Int := 2000

/-- `BEEP_DURATION = 250` ms. -/
def BEEP_DURATION : Nat := 250

/-- `BEEP_FREQ = 300`. -/
def BEEP_FREQ : Nat := 300

/-! ## Data model: buttons and menus -/

/-- A selectable item as the scanner sees it.  `isEmpty` is the result of the
button's `isEmpty()` test (`value === ""`), `waitMultiplier` its
`getWaitMultiplier()`, `buttonType` the constructor tag (`"menuSelector"` for
menu-selector buttons), and `target` the index, in the menu registry, of the
menu that `getTargetMenu()` resolves to (`none` for non-selector buttons,
whose `getTargetMenu` returns `null`). -/
structure Button where
  isEmpty : Bool
  waitMultiplier : Nat
  buttonType : String
  target : Option Nat
deriving Repr, DecidableEq

/-- The slice of `getInfo()` the scanner reads: `hide` (`"dropdown"` for
collapsible menus) and `scanType` (`"repeat"` or `"finish"`). -/
structure MenuInfo where
  hide : String
  scanType : String
deriving Repr, DecidableEq

/-- A menu: an ordered button list plus its `getInfo()` metadata. -/
structure Menu where
  buttons : List Button
  hide : String
  scanType : String
deriving Repr, DecidableEq

def Menu.getButtons (m : Menu) : List Button := m.buttons

def Menu.getNButtons (m : Menu) : Nat := m.buttons.length

def Menu.getInfo (m : Menu) : MenuInfo := ⟨m.hide, m.scanType⟩

/-- The menu registry (`menu.getMenus()`): menus are referenced by index. -/
abbrev Registry := List Menu

/-- `getTargetMenu()` of a button: resolve its `target` name in the registry
(`null`/`none` when the button is not a menu selector). -/
def getTargetMenu (reg : Registry) (button : Button) : Option Menu :=
  button.target.bind (fun i => reg[i]?)

/-- `selectsDropdownMenu` (detector.js lines 521-522):
`buttonType === "menuSelector" && getTargetMenu().getInfo().hide === "dropdown"`.
(In the source a menu selector always resolves its target; an unresolved
target is modelled as `false`.) -/
def selectsDropdownMenu (reg : Registry) (button : Button) : Bool :=
  button.buttonType == "menuSelector" &&
    (match getTargetMenu reg button with
     | some m => m.getInfo.hide == "dropdown"
     | none => false)

/-! ## The continuation built by `makeButtonCallback` (scanner, lines 160-187)

A `ButtonCallback` is the closure returned by `makeButtonCallback`, described
by what it does when the pressed button signals that it has finished:

* `plain true` is `() => scanMenu(menu, cb)` (the `bcb` when
  `scanType === "repeat"`), re-scanning the current menu with the same `cb`;
* `plain false` is `cb` itself;
* `menuSel target dropdown repeatScan` is
  `() => scanMenu(button.getTargetMenu(), afterTarget)` where `afterTarget`
  first calls `button.getTargetMenu().slideUp()` when `dropdown` is true
  (i.e. when `button.selectsDropdownMenu()`), and then invokes the `bcb`
  denoted by `plain repeatScan`.
-/
inductive ButtonCallback where
  | plain (repeatScan : Bool)
  | menuSel (target : Option Nat) (dropdown : Bool) (repeatScan : Bool)
deriving Repr, DecidableEq

/-- `makeButtonCallback` (scanner, lines 160-187), translated clause by
clause from the source. -/
def makeButtonCallback (reg : Registry) (menu : Menu) (button : Button) :
    ButtonCallback :=
  let scanType := menu.getInfo.scanType
  -- let bcb = (scanType === "repeat" ? () => scanMenu(menu, cb) : cb);
  let repeatScan := scanType == "repeat"
  if button.buttonType == "menuSelector" then
    -- return () => scanMenu(button.getTargetMenu(), afterTarget);
    ButtonCallback.menuSel button.target (selectsDropdownMenu reg button) repeatScan
  else
    ButtonCallback.plain repeatScan

/-- Continuation construction as the specification words it (§4.1,
"Completion continuation construction"): a menu-selector item's continuation
recursively scans the child menu with an `afterChild` that collapses the
child iff it is Collapsible (`hide === "dropdown"`) and then runs the outer
continuation; otherwise the continuation re-scans the current menu when its
loop behavior is Repeat (`scanType === "repeat"`) and is `onComplete`
directly when it is ReturnToCaller. -/
def specContinuation (reg : Registry) (menu : Menu) (button : Button) :
    ButtonCallback :=
  if button.buttonType == "menuSelector" then
    ButtonCallback.menuSel button.target
      (match getTargetMenu reg button with
       | some m => m.getInfo.hide == "dropdown"
       | none => false)
      (menu.getInfo.scanType == "repeat")
  else if menu.getInfo.scanType == "repeat" then
    ButtonCallback.plain true
  else
    ButtonCallback.plain false

/-! ## Session state -/

/-- What a pending timeout does when it fires: `longGaze` is
`setTimeout(signalLongGaze, LONG_GAZE_TIME)` armed by `gazeBegin`;
`stepNext buttonIx loopIx` is the `next` closure armed by
`step(button, buttonIx, loopIx)`. -/
inductive TimerKind where
  | longGaze
  | stepNext (buttonIx loopIx : Nat)
deriving Repr, DecidableEq

def TimerKind.isLongGaze : TimerKind → Bool
  | .longGaze => true
  | .stepNext _ _ => false

/-- A pending timeout: its handle, the instant it is due, and its payload. -/
structure Timer where
  tid : Nat
  fireAt : Int
  kind : TimerKind
deriving Repr, DecidableEq

/-- The mutable locals of one `scanMenu` invocation (line 98:
`let currentButton, gazeButton, startTime, timeout, longGazeTimeout;`),
plus the set of timeouts currently pending for this session (`pending`),
the next fresh timeout handle (`nextId`), and whether this session's three
listeners are currently registered (`registered`). -/
structure SessionState where
  currentButton : Option Nat
  gazeButton : Option Nat
  startTime : Option Int
  stepTimer : Option Nat
  longGazeTimer : Option Nat
  registered : Bool
  pending : List Timer
  nextId : Nat
deriving Repr, DecidableEq

/-- Observable interactions with the collaborators, in program order. -/
inductive Effect where
  | toggle (buttonIx : Nat)
  | announce (buttonIx : Nat)
  | press (buttonIx : Nat) (k : ButtonCallback)
  | callCb
  | registerL
  | unregisterL
  | idleMode
  | speakStopping
  | beep
deriving Repr, DecidableEq

/-- `Abort.crash` models a JavaScript `TypeError` (a method call on
`undefined`); `Abort.outOfFuel` means a bounded-recursion driver was given
too little fuel. -/
inductive Abort where
  | crash
  | outOfFuel
deriving Repr, DecidableEq

/-- The scanner's collaborators and settings, fixed for one session: the
scanned menu, the menu registry, `settings.getScanSpeed()`, and the fuel
bound used by the driver when it re-enters `loop`. -/
structure Config where
  menu : Menu
  reg : Registry
  scanSpeed : Nat
  fuel : Nat
deriving Repr, DecidableEq

/-! ## Timing primitives -/

/-- `clearTimeout(h)`: drop the pending timeout with handle `h`; a no-op on
`undefined` or on a handle that is no longer pending. -/
def clearTimeout (h : Option Nat) (pending : List Timer) : List Timer :=
  match h with
  | none => pending
  | some i => pending.filter (fun t => t.tid ≠ i)

/-- `elapsed >= k` where `elapsed` may be `NaN` (`none`): every comparison
with `NaN` is false. -/
def optGe (elapsed : Option Int) (k : Int) : Bool :=
  match elapsed with
  | none => false
  | some x => k ≤ x

/-- `elapsed < k` where `elapsed` may be `NaN` (`none`). -/
def optLt (elapsed : Option Int) (k : Int) : Bool :=
  match elapsed with
  | none => false
  | some x => x < k

/-! ## The handlers of `scanMenu` (scanner, lines 100-212) -/

/-- `nextButton = (ix) => (ix + 1) % menu.getNButtons()`. -/
def nextButton (menu : Menu) (ix : Nat) : Nat :=
  (ix + 1) % menu.getNButtons

/-- `isLastButton = (buttonIx) => buttonIx === menu.getNButtons() - 1`
(JavaScript subtraction, hence computed in `Int`). -/
def isLastButton (menu : Menu) (buttonIx : Nat) : Bool :=
  (buttonIx : Int) == (menu.getNButtons : Int) - 1

/-- `nextLoop = (buttonIx, loopIx) => isLastButton(buttonIx) ? loopIx + 1 : loopIx`. -/
def nextLoop (menu : Menu) (buttonIx loopIx : Nat) : Nat :=
  if isLastButton menu buttonIx then loopIx + 1 else loopIx

/-- `isLoopOver = (loopIx) => loopIx === N_LOOPS`. -/
def isLoopOver (loopIx : Nat) : Bool :=
  loopIx == N_LOOPS

/-- `getWaitTime = (button) => settings.getScanSpeed() * button.getWaitMultiplier()`. -/
def getWaitTime (cfg : Config) (button : Button) : Nat :=
  cfg.scanSpeed * button.waitMultiplier

/-- `gazeBegin()` (lines 110-118): note the button under point and the time,
and arm the long-gaze warning beep.  It has no immediately observable
effect, and it does *not* clear a previously armed warning timeout. -/
def gazeBegin (now : Int) (s : SessionState) : SessionState :=
  { s with
    gazeButton := s.currentButton,
    startTime := some now,
    longGazeTimer := some s.nextId,
    pending := s.pending ++ [⟨s.nextId, now + LONG_GAZE_TIME, .longGaze⟩],
    nextId := s.nextId + 1 }

/-- `if (currentButton !== gazeButton) { currentButton.toggle(); }`
(lines 127-129).  Crashes when `currentButton` is `undefined` and the test
succeeds. -/
def toggleIfMoved (s : SessionState) : Except Abort (List Effect) :=
  if s.currentButton ≠ s.gazeButton then
    match s.currentButton with
    | some c => .ok [Effect.toggle c]
    | none => .error .crash
  else
    .ok []

/-- `pressButton(button)` (lines 148-159): unregister the three listeners,
toggle the pressed button when the sweep has not advanced past it, build its
completion callback, register it as the one-shot finished listener and press
the button (`Effect.press` covers `addFinishedListener(bcb)` plus
`button.pressed()`).  `button` is the `gazeButton` value passed by
`gazeEnd`; pressing `undefined` crashes (`makeButtonCallback` reads
`button.buttonType`). -/
def pressButton (cfg : Config) (s : SessionState) (button : Option Nat) :
    Except Abort (SessionState × List Effect) :=
  let s1 := { s with registered := false }
  let toggled : Except Abort (List Effect) :=
    if s.currentButton = s.gazeButton then
      match button with
      | some b => .ok [Effect.toggle b]
      | none => .error .crash
    else
      .ok []
  match toggled with
  | .error a => .error a
  | .ok fx1 =>
    match button with
    | none => .error .crash
    | some bIx =>
      match cfg.menu.buttons[bIx]? with
      | none => .error .crash
      | some b =>
        .ok (s1, [Effect.unregisterL] ++ fx1 ++
                 [Effect.press bIx (makeButtonCallback cfg.reg cfg.menu b)])

/-- The session state after `gazeEnd`'s two cancellations,
`clearTimeout(longGazeTimeout)` (unconditional, first) and
`clearTimeout(timeout)` (on the `elapsed >= SHORT_GAZE_TIME` path). -/
def clearedGaze (s : SessionState) : SessionState :=
  { s with pending := clearTimeout s.stepTimer (clearTimeout s.longGazeTimer s.pending) }

/-- `gazeEnd()` (lines 119-137): clear the long-gaze warning, measure the
gaze (`NaN`, i.e. `none`, when `startTime` is undefined), and depending on
its length do nothing, press the button under point at gaze begin, or exit
the menu via `cb`. -/
def gazeEnd (cfg : Config) (now : Int) (s : SessionState) :
    Except Abort (SessionState × List Effect) :=
  if optGe (s.startTime.map (fun t0 => now - t0)) SHORT_GAZE_TIME then
    -- clearTimeout(timeout);  (the long-gaze clear is part of clearedGaze)
    match toggleIfMoved (clearedGaze s) with
    | .error a => .error a
    | .ok fx1 =>
      if optLt (s.startTime.map (fun t0 => now - t0)) LONG_GAZE_TIME then
        -- pressButton(gazeButton);
        match pressButton cfg (clearedGaze s) s.gazeButton with
        | .error a => .error a
        | .ok (s3, fx2) => .ok (s3, fx1 ++ fx2)
      else
        -- unregister(); cb();
        .ok ({ clearedGaze s with registered := false },
             fx1 ++ [Effect.unregisterL, Effect.callCb])
  else
    -- only clearTimeout(longGazeTimeout) happened
    .ok ({ s with pending := clearTimeout s.longGazeTimer s.pending }, [])

/-- `pressStop()` (lines 138-147): unregister, un-highlight the current
button, cancel the step timeout, put the detector in idle mode and announce
"stopping"; `cb` is never invoked. -/
def pressStop (s : SessionState) : Except Abort (SessionState × List Effect) :=
  match s.currentButton with
  | none => .error .crash   -- currentButton.toggle() on undefined
  | some c =>
    .ok ({ s with registered := false,
                  pending := clearTimeout s.stepTimer s.pending },
         [Effect.unregisterL, Effect.toggle c, Effect.idleMode,
          Effect.speakStopping])

/-- `step(button, buttonIx, loopIx)` (lines 201-212): highlight and announce
the button, and arm the `next` timeout for `getWaitTime(button)` ms. -/
def step (cfg : Config) (now : Int) (s : SessionState) (button : Button)
    (buttonIx loopIx : Nat) : SessionState × List Effect :=
  let waitTime := getWaitTime cfg button
  ({ s with
     currentButton := some buttonIx,
     stepTimer := some s.nextId,
     pending := s.pending ++ [⟨s.nextId, now + (waitTime : Int), .stepNext buttonIx loopIx⟩],
     nextId := s.nextId + 1 },
   [Effect.toggle buttonIx, Effect.announce buttonIx])

/-- `loop(buttonIx, loopIx)` (lines 188-200): when the loop count has hit
`N_LOOPS`, unregister and invoke `cb`; when the button under the index is
empty, restart at index 0 with the loop count incremented; otherwise take a
`step` on that button.  Reading `menu.getButtons()[buttonIx]` past the end
yields `undefined`, so `button.isEmpty()` crashes.  The recursion through
empty buttons is bounded by `fuel`. -/
def loop (cfg : Config) (now : Int) (s : SessionState) :
    Nat → Nat → Nat → Except Abort (SessionState × List Effect)
  | 0, _, _ => .error .outOfFuel
  | fuel + 1, buttonIx, loopIx =>
    if isLoopOver loopIx then
      .ok ({ s with registered := false }, [Effect.unregisterL, Effect.callCb])
    else
      match cfg.menu.buttons[buttonIx]? with
      | none => .error .crash
      | some button =>
        if button.isEmpty then
          loop cfg now s fuel 0 (loopIx + 1)
        else
          .ok (step cfg now s button buttonIx loopIx)

/-! ## Event dispatch -/

/-- What a pending timeout does when it fires.  `signalLongGaze` is
`speaker.beep(BEEP_FREQ, BEEP_DURATION)`; a `next` closure (armed by `step`)
un-highlights its button and continues the sweep via
`loop(nextButton(buttonIx), nextLoop(buttonIx, loopIx))`. -/
def fireTimer (cfg : Config) (now : Int) (s : SessionState) :
    TimerKind → Except Abort (SessionState × List Effect)
  | .longGaze => .ok (s, [Effect.beep])
  | .stepNext buttonIx loopIx =>
    match loop cfg now s cfg.fuel (nextButton cfg.menu buttonIx)
        (nextLoop cfg.menu buttonIx loopIx) with
    | .ok (s', fx) => .ok (s', Effect.toggle buttonIx :: fx)
    | .error a => .error a

/-- The four kinds of event a live session can receive: the detector's
begin/end callbacks, the stop button, and the expiry of a pending timeout
(identified by its handle). -/
inductive SessionEvent where
  | gazeBeginEv
  | gazeEndEv
  | stopEv
  | timerFires (tid : Nat)
deriving Repr, DecidableEq

/-- Run one event to completion.  A `timerFires` event for a handle that is
not pending (cleared or already fired) does nothing — the JavaScript event
loop never delivers such an event; a firing timeout is removed from the
pending set before its payload runs. -/
def handle (cfg : Config) (now : Int) (s : SessionState) :
    SessionEvent → Except Abort (SessionState × List Effect)
  | .gazeBeginEv => .ok (gazeBegin now s, [])
  | .gazeEndEv => gazeEnd cfg now s
  | .stopEv => pressStop s
  | .timerFires tid =>
    match s.pending.find? (fun t => t.tid == tid) with
    | none => .ok (s, [])
    | some t =>
      fireTimer cfg now
        { s with pending := s.pending.filter (fun u => u.tid ≠ tid) } t.kind

/-- The tail of `scanMenu` (lines 214-216): fresh session locals (all
`undefined`), `register()`, then `loop(0, 0)`. -/
def scanMenuStart (cfg : Config) (now : Int) :
    Except Abort (SessionState × List Effect) :=
  let s0 : SessionState :=
    { currentButton := none, gazeButton := none, startTime := none,
      stepTimer := none, longGazeTimer := none, registered := true,
      pending := [], nextId := 0 }
  match loop cfg now s0 cfg.fuel 0 0 with
  | .ok (s, fx) => .ok (s, Effect.registerL :: fx)
  | .error a => .error a

/-- Sanity conditions every reachable session state satisfies: pending
timeout handles are strictly below the fresh-handle counter, the variables
`timeout` and `longGazeTimeout` hold handles below the counter, and a
pending timeout pointed to by `longGazeTimeout` (resp. `timeout`) is a
long-gaze (resp. step) one. -/
def wellFormed (s : SessionState) : Bool :=
  s.pending.all (fun t =>
    decide (t.tid < s.nextId) &&
    (s.longGazeTimer != some t.tid || t.kind.isLongGaze) &&
    (s.stepTimer != some t.tid || !t.kind.isLongGaze)) &&
  (match s.stepTimer with | some k => decide (k < s.nextId) | none => true) &&
  (match s.longGazeTimer with | some k => decide (k < s.nextId) | none => true)

/-- `Advances cfg s s'`: the session moves from `s` to `s'` through timeout
expiries alone (step advances of the sweep and/or the long-gaze warning
beep) — no gesture and no stop event in between. -/
inductive Advances (cfg : Config) : SessionState → SessionState → Prop
  | refl (s : SessionState) : Advances cfg s s
  | fire (s s' s'' : SessionState) (now : Int) (tid : Nat) (fx : List Effect)
      (h : handle cfg now s (.timerFires tid) = .ok (s', fx))
      (h2 : Advances cfg s' s'') : Advances cfg s s''

/-! ## The gesture-free sweep

With no gesture and no stop event, the session alternates `loop`/`step`
with the expiry of the armed `next` timeout; their composition is the pure
recursion below, which records each visited button together with the loop
index during which it is visited (each visit stands for `step`'s
highlight-and-announce), the number of `cb()` invocations, and the loop
index at the `isLoopOver` exit. -/

structure SweepOut where
  visits : List (Nat × Nat)
  cbCalls : Nat
  finalLoopIx : Nat
deriving Repr, DecidableEq

/-- The gesture-free run of `loop` from `(buttonIx, loopIx)` (scanner lines
188-212, with every armed `next` timeout firing unimpeded). -/
def noGestureSweep (menu : Menu) :
    Nat → Nat → Nat → Except Abort SweepOut
  | 0, _, _ => .error .outOfFuel
  | fuel + 1, buttonIx, loopIx =>
    if isLoopOver loopIx then
      -- unregister(); cb();
      .ok ⟨[], 1, loopIx⟩
    else
      match menu.buttons[buttonIx]? with
      | none => .error .crash
      | some button =>
        if button.isEmpty then
          noGestureSweep menu fuel 0 (loopIx + 1)
        else
          match noGestureSweep menu fuel (nextButton menu buttonIx)
              (nextLoop menu buttonIx loopIx) with
          | .ok out =>
            .ok ⟨(buttonIx, loopIx) :: out.visits, out.cbCalls, out.finalLoopIx⟩
          | .error a => .error a

/-- The length of the menu's leading run of non-empty buttons (the buttons
strictly before its first empty button). -/
def leadingLen (menu : Menu) : Nat :=
  (menu.buttons.takeWhile (fun b => !b.isEmpty)).length

/-- The visit list a gesture-free sweep produces from `(buttonIx, loopIx)`
when the menu's leading non-empty run has length `k`: the rest of the
current pass over that run, then the full run once per remaining loop. -/
def visitsFrom (k : Nat) (buttonIx loopIx : Nat) : List (Nat × Nat) :=
  if loopIx < N_LOOPS then
    ((List.range' buttonIx (k - buttonIx)).map (fun i => (i, loopIx))) ++
      visitsFrom k 0 (loopIx + 1)
  else
    []
termination_by N_LOOPS - loopIx
decreasing_by simp_wf; omega

/-! ## Concrete sample data (used by the witnesses) -/

/-- A plain non-empty letter button. -/
def letterB : Button :=
  { isEmpty := false, waitMultiplier := 1, buttonType := "letter", target := none }

/-- An empty (skipped) guess button. -/
def emptyB : Button :=
  { isEmpty := true, waitMultiplier := 1, buttonType := "guess", target := none }

/-- A menu-selector button targeting registry slot 0. -/
def selectorB : Button :=
  { isEmpty := false, waitMultiplier := 1, buttonType := "menuSelector", target := some 0 }

/-- A dropdown target menu. -/
def dropMenu : Menu :=
  { buttons := [letterB, letterB], hide := "dropdown", scanType := "finish" }

/-- A two-button repeat menu. -/
def exMenu : Menu :=
  { buttons := [letterB, letterB], hide := "commboard", scanType := "repeat" }

/-- A menu whose empty button precedes its non-empty one. -/
def emptyFirstMenu : Menu :=
  { buttons := [emptyB, letterB], hide := "commboard", scanType := "finish" }

/-- A menu with no buttons at all. -/
def noButtonMenu : Menu :=
  { buttons := [], hide := "commboard", scanType := "finish" }

def exCfg : Config := { menu := exMenu, reg := [dropMenu], scanSpeed := 1000, fuel := 12 }

/-- The session right after `scanMenu`'s synchronous prologue stepped onto
button 0 of `exMenu` at time 0 (`scanMenuStart exCfg 0`). -/
def exS : SessionState :=
  { currentButton := some 0, gazeButton := none, startTime := none,
    stepTimer := some 0, longGazeTimer := none, registered := true,
    pending := [⟨0, 1000, .stepNext 0 0⟩], nextId := 1 }

/-- `exS` after `gazeBegin` at time 0: button 0 is under point. -/
def exS1 : SessionState := gazeBegin 0 exS

/-- `exS1` after the step timeout (handle 0) fired at time 1000: the sweep
has advanced to button 1 while the gesture is still in progress. -/
def exS2 : SessionState :=
  { currentButton := some 1, gazeButton := some 0, startTime := some 0,
    stepTimer := some 2, longGazeTimer := some 1, registered := true,
    pending := [⟨1, 2000, .longGaze⟩, ⟨2, 2000, .stepNext 1 0⟩], nextId := 3 }

/-! ## Helper predicates and lemmas -/

/-- Effects that activate an item. -/
def isPressE : Effect → Bool
  | .press _ _ => true
  | _ => false

/-- Effects that hand control onward: invoking `cb` directly, or pressing a
button (whose completion callback runs `cb` or another `scanMenu`). -/
def isHandoff : Effect → Bool
  | .callCb => true
  | .press _ _ => true
  | _ => false

/-- A pending timer that the `longGazeTimeout` handle does not designate as
long-gaze survives `clearTimeout(longGazeTimeout)`, in any well-formed
state. -/
theorem wf_clear_longGaze_keeps {s : SessionState} (hwf : wellFormed s = true)
    {t : Timer} (ht : t ∈ s.pending) (hk : t.kind.isLongGaze = false) :
    t ∈ clearTimeout s.longGazeTimer s.pending := by
  cases h : s.longGazeTimer with
  | none => simpa [clearTimeout] using ht
  | some j =>
    simp only [clearTimeout, List.mem_filter]
    refine ⟨ht, ?_⟩
    simp only [wellFormed, Bool.and_eq_true, List.all_eq_true] at hwf
    have := hwf.1.1 t ht
    simp only [Bool.and_eq_true, Bool.or_eq_true, bne_iff_ne, ne_eq,
      decide_eq_true_eq] at this
    rcases this.1.2 with hne | hlg
    · simp only [h] at hne
      simp only [ne_eq, decide_eq_true_eq]
      intro hEq
      exact hne (by rw [hEq])
    · rw [hk] at hlg; cases hlg

/-! ## Claim theorems -/

/-- **C6.** The completion continuation built by `makeButtonCallback` is as
the specification describes it: for a menu-selector button it recursively
scans the target menu with an after-callback that collapses (`slideUp`) the
target iff the target is a dropdown/Collapsible menu and then runs the outer
continuation; for any other button it is `() => scanMenu(menu, cb)` when the
current menu's `scanType` is `"repeat"` and `cb` itself otherwise. -/
theorem makeButtonCallback_matches_spec (reg : Registry) (menu : Menu)
    (button : Button) :
    makeButtonCallback reg menu button = specContinuation reg menu button := by
  unfold makeButtonCallback specContinuation selectsDropdownMenu
  cases hbt : (button.buttonType == "menuSelector") with
  | true =>
    simp only [hbt, if_true, Bool.true_and]
  | false =>
    simp only [hbt, if_false, Bool.false_and]
    cases hst : (menu.getInfo.scanType == "repeat") <;> simp [hst]

/-- **C9.** A gesture-end delivered before any gesture-begin has been
recorded (so `startTime` and `longGazeTimeout` are both `undefined`) is a
harmless no-op: `elapsed` is `NaN`, `elapsed >= SHORT_GAZE_TIME` is false,
and the handler leaves the state untouched and produces no effect — no item
activated, `cb` not invoked, listeners untouched, step timeout untouched. -/
theorem gazeEnd_before_begin_noop (cfg : Config) (now : Int) (s : SessionState)
    (h1 : s.startTime = none) (h2 : s.longGazeTimer = none) :
    gazeEnd cfg now s = .ok (s, []) := by
  unfold gazeEnd
  rw [h1, h2]
  simp only [optGe, clearTimeout, Option.map_none', if_neg, Bool.false_eq_true,
    not_false_eq_true, Except.ok.injEq, Prod.mk.injEq, and_true, true_and]
  rw [← h1, ← h2]

/-- Witness for C9: a gesture-end at time 999 delivered to the freshly
started session `exS` (no gesture-begin yet) changes nothing. -/
theorem gazeEnd_before_begin_noop_witness :
    gazeEnd exCfg 999 exS = .ok (exS, []) :=
  gazeEnd_before_begin_noop exCfg 999 exS rfl rfl

/-- **C8.** The stop handler: it unregisters the listeners, toggles
(un-highlights) the current button, cancels the pending step timeout, sets
the detector to idle mode and announces "stopping" — in that order — and it
never invokes `cb`. -/
theorem pressStop_teardown (s : SessionState) (c : Nat)
    (h : s.currentButton = some c) :
    pressStop s =
      .ok ({ s with registered := false,
                    pending := clearTimeout s.stepTimer s.pending },
           [Effect.unregisterL, Effect.toggle c, Effect.idleMode,
            Effect.speakStopping]) ∧
    (∀ k, s.stepTimer = some k →
      ∀ t ∈ clearTimeout s.stepTimer s.pending, t.tid ≠ k) ∧
    Effect.callCb ∉ [Effect.unregisterL, Effect.toggle c, Effect.idleMode,
                     Effect.speakStopping] := by
  refine ⟨?_, ?_, by simp⟩
  · unfold pressStop
    rw [h]
  · intro k hk t ht
    rw [hk] at ht
    simp only [clearTimeout, List.mem_filter, ne_eq, decide_eq_true_eq] at ht
    exact ht.2

/-- Witness for C8: stopping the session `exS2` (current button 1) tears it
down exactly as described. -/
theorem pressStop_teardown_witness :
    pressStop exS2 =
      .ok ({ exS2 with registered := false,
                       pending := clearTimeout exS2.stepTimer exS2.pending },
           [Effect.unregisterL, Effect.toggle 1, Effect.idleMode,
            Effect.speakStopping]) ∧
    (∀ k, exS2.stepTimer = some k →
      ∀ t ∈ clearTimeout exS2.stepTimer exS2.pending, t.tid ≠ k) ∧
    Effect.callCb ∉ [Effect.unregisterL, Effect.toggle 1, Effect.idleMode,
                     Effect.speakStopping] :=
  pressStop_teardown exS2 1 rfl

/-- **C5.** A gesture of duration `elapsed ≥ LONG_GAZE_TIME`: the gesture-end
handler (after un-highlighting the current button when the sweep advanced
during the gesture) unregisters the three listeners and invokes `cb`, and no
item is activated (no `press` effect).  Moreover `gazeBegin` arms the
long-gaze warning exactly `LONG_GAZE_TIME` after the gesture began, and when
that timeout is still pending at that mark its expiry beeps
(`signalLongGaze`). -/
theorem long_gaze_exit_and_cue (cfg : Config) (now t0 : Int) (s : SessionState)
    (c : Nat)
    (hst : s.startTime = some t0)
    (hc : s.currentButton = some c)
    (hel : LONG_GAZE_TIME ≤ now - t0) :
    gazeEnd cfg now s =
      .ok ({ s with
              pending := clearTimeout s.stepTimer
                (clearTimeout s.longGazeTimer s.pending),
              registered := false },
           (if s.gazeButton = some c then [] else [Effect.toggle c]) ++
             [Effect.unregisterL, Effect.callCb]) ∧
    (∀ bIx k, Effect.press bIx k ∉
        (if s.gazeButton = some c then ([] : List Effect)
         else [Effect.toggle c]) ++ [Effect.unregisterL, Effect.callCb]) ∧
    (∀ (s' : SessionState) (t1 : Int),
        (gazeBegin t1 s').pending =
          s'.pending ++ [⟨s'.nextId, t1 + LONG_GAZE_TIME, TimerKind.longGaze⟩] ∧
        (gazeBegin t1 s').longGazeTimer = some s'.nextId) ∧
    (∀ (now' : Int) (s' : SessionState),
        fireTimer cfg now' s' TimerKind.longGaze = .ok (s', [Effect.beep])) := by
  have hel' : (2000 : Int) ≤ now - t0 := hel
  have hge : optGe (some (now - t0)) SHORT_GAZE_TIME = true := by
    simp only [optGe, decide_eq_true_eq]
    show (200 : Int) ≤ now - t0
    omega
  have hlt : optLt (some (now - t0)) LONG_GAZE_TIME = false := by
    simp only [optLt, decide_eq_false_iff_not, not_lt]
    exact hel
  refine ⟨?_, ?_, fun s' t1 => ⟨rfl, rfl⟩, fun now' s' => rfl⟩
  · unfold gazeEnd toggleIfMoved clearedGaze
    rw [hst]
    simp only [Option.map_some', hge, if_true, hlt, Bool.false_eq_true, if_false]
    by_cases heq : s.gazeButton = some c
    · rw [hc, heq]
      simp
    · have hne : (some c : Option Nat) ≠ s.gazeButton := fun h => heq h.symm
      rw [hc]
      simp [hne, heq]
  · intro bIx k
    by_cases heq : s.gazeButton = some c <;> simp [heq]

/-- Witness for C5: in session `exS1` (gesture began at 0 on button 0) a
gesture-end at 2500 exits the menu: effects `[unregister, cb]`, no press;
and the warning beep armed at 0 was scheduled for instant 2000. -/
theorem long_gaze_exit_and_cue_witness :
    gazeEnd exCfg 2500 exS1 =
      .ok ({ exS1 with
              pending := clearTimeout exS1.stepTimer
                (clearTimeout exS1.longGazeTimer exS1.pending),
              registered := false },
           (if exS1.gazeButton = some 0 then [] else [Effect.toggle 0]) ++
             [Effect.unregisterL, Effect.callCb]) ∧
    (∀ bIx k, Effect.press bIx k ∉
        (if exS1.gazeButton = some 0 then ([] : List Effect)
         else [Effect.toggle 0]) ++ [Effect.unregisterL, Effect.callCb]) ∧
    (∀ (s' : SessionState) (t1 : Int),
        (gazeBegin t1 s').pending =
          s'.pending ++ [⟨s'.nextId, t1 + LONG_GAZE_TIME, TimerKind.longGaze⟩] ∧
        (gazeBegin t1 s').longGazeTimer = some s'.nextId) ∧
    (∀ (now' : Int) (s' : SessionState),
        fireTimer exCfg now' s' TimerKind.longGaze = .ok (s', [Effect.beep])) :=
  long_gaze_exit_and_cue exCfg 2500 0 exS1 0 rfl rfl (by decide)

/-- **C7.** A gesture of duration `elapsed < SHORT_GAZE_TIME` is noise: the
gesture-end handler produces no effect (no activation, no `cb`), and only
the long-gaze warning timeout is cleared — `currentButton`, the listener
registration, the `timeout` handle and every pending step timeout are
untouched, so the sweep continues uninterrupted. -/
theorem short_gaze_ignored (cfg : Config) (now t0 : Int) (s : SessionState)
    (hwf : wellFormed s = true)
    (hst : s.startTime = some t0)
    (hel : now - t0 < SHORT_GAZE_TIME) :
    gazeEnd cfg now s =
      .ok ({ s with pending := clearTimeout s.longGazeTimer s.pending }, []) ∧
    (∀ t ∈ s.pending, t.kind.isLongGaze = false →
        t ∈ clearTimeout s.longGazeTimer s.pending) := by
  constructor
  · have hge : optGe (some (now - t0)) SHORT_GAZE_TIME = false := by
      simp only [optGe, decide_eq_false_iff_not, not_le]
      show now - t0 < (200 : Int)
      exact hel
    unfold gazeEnd
    rw [hst]
    simp [hge]
  · intro t ht hk
    exact wf_clear_longGaze_keeps hwf ht hk

/-- Witness for C7: a 100 ms gaze in session `exS1` is ignored and the
pending step timeout (handle 0) survives. -/
theorem short_gaze_ignored_witness :
    (gazeEnd exCfg 100 exS1 =
      .ok ({ exS1 with pending := clearTimeout exS1.longGazeTimer exS1.pending },
           []) ∧
    (∀ t ∈ exS1.pending, t.kind.isLongGaze = false →
        t ∈ clearTimeout exS1.longGazeTimer exS1.pending)) :=
  short_gaze_ignored exCfg 100 0 exS1 (by decide) rfl (by decide)

/-- `clearTimeout` keeps any timer whose handle is not the cleared one. -/
theorem mem_clearTimeout_of_ne {h : Option Nat} {l : List Timer} {t : Timer}
    (ht : t ∈ l) (hne : h ≠ some t.tid) : t ∈ clearTimeout h l := by
  cases h with
  | none => simpa [clearTimeout] using ht
  | some j =>
    simp only [clearTimeout, List.mem_filter, ne_eq, decide_eq_true_eq]
    exact ⟨ht, fun hEq => hne (by rw [hEq])⟩

/-- `clearTimeout` only removes timers. -/
theorem clearTimeout_subset (h : Option Nat) (l : List Timer) :
    ∀ t ∈ clearTimeout h l, t ∈ l := by
  cases h with
  | none => intro t ht; simpa [clearTimeout] using ht
  | some j => intro t ht; exact List.mem_of_mem_filter ht

/-- Characterization of a successful `pressButton`: the state change is
exactly the unregistration, and the effects are `unregister`, the
conditional toggle, and the press of the given button with the continuation
`makeButtonCallback` builds for it. -/
theorem pressButton_ok_parts (cfg : Config) (s : SessionState) (b : Option Nat)
    (s' : SessionState) (fx : List Effect)
    (h : pressButton cfg s b = .ok (s', fx)) :
    s' = { s with registered := false } ∧
    ∃ bIx btn, b = some bIx ∧ cfg.menu.buttons[bIx]? = some btn ∧
      fx = [Effect.unregisterL] ++
           (if s.currentButton = s.gazeButton then [Effect.toggle bIx] else []) ++
           [Effect.press bIx (makeButtonCallback cfg.reg cfg.menu btn)] := by
  unfold pressButton at h
  by_cases hcg : s.currentButton = s.gazeButton
  · cases b with
    | none => simp [hcg] at h
    | some bIx =>
      cases hbtn : cfg.menu.buttons[bIx]? with
      | none => simp [hcg, hbtn] at h
      | some btn =>
        simp only [if_pos hcg, hbtn, Except.ok.injEq, Prod.mk.injEq] at h
        exact ⟨h.1.symm, bIx, btn, rfl, hbtn, by simp [if_pos hcg, h.2.symm]⟩
  · cases b with
    | none => simp [hcg] at h
    | some bIx =>
      cases hbtn : cfg.menu.buttons[bIx]? with
      | none => simp [hcg, hbtn] at h
      | some btn =>
        simp only [if_neg hcg, hbtn, Except.ok.injEq, Prod.mk.injEq] at h
        exact ⟨h.1.symm, bIx, btn, rfl, hbtn, by simp [if_neg hcg, h.2.symm]⟩

/-- Pending-set behaviour of a successful `gazeEnd`: it never adds a timer,
and it removes only timers designated by the `longGazeTimeout` or `timeout`
handles. -/
theorem gazeEnd_pending_mem (cfg : Config) (now : Int) (s s' : SessionState)
    (fx : List Effect) (h : gazeEnd cfg now s = .ok (s', fx)) :
    (∀ t ∈ s'.pending, t ∈ s.pending) ∧
    (∀ t ∈ s.pending, s.longGazeTimer ≠ some t.tid →
        s.stepTimer ≠ some t.tid → t ∈ s'.pending) := by
  have hcg : (∀ t ∈ (clearedGaze s).pending, t ∈ s.pending) ∧
      (∀ t ∈ s.pending, s.longGazeTimer ≠ some t.tid →
          s.stepTimer ≠ some t.tid → t ∈ (clearedGaze s).pending) := by
    constructor
    · intro t ht
      exact clearTimeout_subset _ _ t (clearTimeout_subset _ _ t
        (by simpa [clearedGaze] using ht))
    · intro t ht h1 h2
      simp only [clearedGaze]
      exact mem_clearTimeout_of_ne (mem_clearTimeout_of_ne ht h1) h2
  unfold gazeEnd at h
  split at h
  · -- elapsed >= SHORT_GAZE_TIME
    cases htog : toggleIfMoved (clearedGaze s) with
    | error a => simp only [htog] at h; exact Except.noConfusion h
    | ok fx1 =>
      simp only [htog] at h
      split at h
      · -- elapsed < LONG_GAZE_TIME: pressButton path
        cases hpb : pressButton cfg (clearedGaze s) s.gazeButton with
        | error a => simp only [hpb] at h; exact Except.noConfusion h
        | ok out =>
          obtain ⟨s3, fx2⟩ := out
          simp only [hpb, Except.ok.injEq, Prod.mk.injEq] at h
          obtain ⟨hs, -⟩ := h
          obtain ⟨hstate, -⟩ := pressButton_ok_parts _ _ _ _ _ hpb
          subst hs
          rw [hstate]
          exact hcg
      · -- long gaze path
        simp only [Except.ok.injEq, Prod.mk.injEq] at h
        obtain ⟨hs, -⟩ := h
        rw [← hs]
        exact hcg
  · -- noise path
    simp only [Except.ok.injEq, Prod.mk.injEq] at h
    obtain ⟨hs, -⟩ := h
    rw [← hs]
    constructor
    · intro t ht
      exact clearTimeout_subset _ _ t ht
    · intro t ht h1 _
      exact mem_clearTimeout_of_ne ht h1

/-- **C10.** Two gesture-begins with no gesture-end in between: the second
`gazeBegin` overwrites `startTime` and the `longGazeTimeout` handle, so the
warning timeout armed by the first begin (due `LONG_GAZE_TIME` after the
first begin) stays pending, survives any subsequent successful gesture-end
(which clears only the timeouts its handles designate), and its expiry still
produces the audible long-gaze cue. -/
theorem double_gazeBegin_stale_warning (cfg : Config) (s : SessionState)
    (t1 t2 : Int) (hwf : wellFormed s = true) :
    (⟨s.nextId, t1 + LONG_GAZE_TIME, TimerKind.longGaze⟩ : Timer) ∈
        (gazeBegin t2 (gazeBegin t1 s)).pending ∧
    (gazeBegin t2 (gazeBegin t1 s)).longGazeTimer = some (s.nextId + 1) ∧
    (gazeBegin t2 (gazeBegin t1 s)).startTime = some t2 ∧
    (∀ (now : Int) (s3 : SessionState) (fx : List Effect),
        gazeEnd cfg now (gazeBegin t2 (gazeBegin t1 s)) = .ok (s3, fx) →
        (⟨s.nextId, t1 + LONG_GAZE_TIME, TimerKind.longGaze⟩ : Timer) ∈
            s3.pending ∧
        ∃ s5, handle cfg (t1 + LONG_GAZE_TIME) s3 (.timerFires s.nextId) =
            .ok (s5, [Effect.beep])) := by
  simp only [wellFormed, Bool.and_eq_true, List.all_eq_true] at hwf
  obtain ⟨⟨hpend, hstep'⟩, -⟩ := hwf
  have hpendLt : ∀ t ∈ s.pending, t.tid < s.nextId := by
    intro t ht
    have := hpend t ht
    simp only [Bool.and_eq_true, decide_eq_true_eq] at this
    exact this.1.1
  have hstepLt : ∀ k, s.stepTimer = some k → k < s.nextId := by
    intro k hk
    rw [hk] at hstep'
    simpa using hstep'
  have hmem1 : (⟨s.nextId, t1 + LONG_GAZE_TIME, TimerKind.longGaze⟩ : Timer) ∈
      (gazeBegin t2 (gazeBegin t1 s)).pending := by
    simp [gazeBegin]
  refine ⟨hmem1, rfl, rfl, ?_⟩
  intro now s3 fx hend
  have hkeep := (gazeEnd_pending_mem cfg now _ s3 fx hend).2
  have hsub := (gazeEnd_pending_mem cfg now _ s3 fx hend).1
  have hmem3 : (⟨s.nextId, t1 + LONG_GAZE_TIME, TimerKind.longGaze⟩ : Timer) ∈
      s3.pending := by
    refine hkeep _ hmem1 (by simp [gazeBegin]) ?_
    show (gazeBegin t2 (gazeBegin t1 s)).stepTimer ≠ some s.nextId
    have : (gazeBegin t2 (gazeBegin t1 s)).stepTimer = s.stepTimer := rfl
    rw [this]
    cases hk : s.stepTimer with
    | none => simp
    | some k =>
      have := hstepLt k hk
      simp only [ne_eq, Option.some.injEq]
      omega
  refine ⟨hmem3, ?_⟩
  have hfindSome : (s3.pending.find? (fun t => t.tid == s.nextId)).isSome = true := by
    rw [List.find?_isSome]
    exact ⟨_, hmem3, by simp⟩
  obtain ⟨t', hfind⟩ := Option.isSome_iff_exists.mp hfindSome
  have htid : t'.tid = s.nextId := by
    have := List.find?_some hfind
    simpa using this
  have ht'mem : t' ∈ (gazeBegin t2 (gazeBegin t1 s)).pending :=
    hsub t' (List.mem_of_find?_eq_some hfind)
  have ht'eq : t' = ⟨s.nextId, t1 + LONG_GAZE_TIME, TimerKind.longGaze⟩ := by
    simp only [gazeBegin, List.mem_append, List.mem_singleton] at ht'mem
    rcases ht'mem with (hin | h1) | h2
    · exact absurd htid (by have := hpendLt t' hin; omega)
    · exact h1
    · rw [h2] at htid
      exact absurd htid (by simp)
  refine ⟨{ s3 with pending := s3.pending.filter (fun u => u.tid ≠ s.nextId) }, ?_⟩
  simp only [handle, hfind, ht'eq]
  rfl

/-- Witness for C10: from the running session `exS`, gesture-begins at 0 and
at 700 leave the first warning timeout (handle 1, due at instant 2000)
pending; any successful gesture-end keeps it pending and its expiry beeps. -/
theorem double_gazeBegin_stale_warning_witness :
    (⟨exS.nextId, 0 + LONG_GAZE_TIME, TimerKind.longGaze⟩ : Timer) ∈
        (gazeBegin 700 (gazeBegin 0 exS)).pending ∧
    (gazeBegin 700 (gazeBegin 0 exS)).longGazeTimer = some (exS.nextId + 1) ∧
    (gazeBegin 700 (gazeBegin 0 exS)).startTime = some 700 ∧
    (∀ (now : Int) (s3 : SessionState) (fx : List Effect),
        gazeEnd exCfg now (gazeBegin 700 (gazeBegin 0 exS)) = .ok (s3, fx) →
        (⟨exS.nextId, 0 + LONG_GAZE_TIME, TimerKind.longGaze⟩ : Timer) ∈
            s3.pending ∧
        ∃ s5, handle exCfg (0 + LONG_GAZE_TIME) s3 (.timerFires exS.nextId) =
            .ok (s5, [Effect.beep])) :=
  double_gazeBegin_stale_warning exCfg exS 0 700 (by decide)

/-- `disciplined fx`: scanning `fx` left to right, no handoff effect
(`cb()` invocation or button press) occurs before an `unregisterL`. -/
def disciplined : List Effect → Bool
  | [] => true
  | e :: rest =>
    if isHandoff e then false
    else (e == Effect.unregisterL) || disciplined rest

/-- A disciplined effect list has an `unregisterL` strictly before every
handoff effect. -/
theorem disciplined_spec : ∀ (fx : List Effect), disciplined fx = true →
    ∀ (i : Nat) (e : Effect), fx[i]? = some e → isHandoff e = true →
      ∃ j, j < i ∧ fx[j]? = some Effect.unregisterL := by
  intro fx
  induction fx with
  | nil => intro _ i e hi _; simp at hi
  | cons e0 rest ih =>
    intro hd i e hi hh
    simp only [disciplined] at hd
    split at hd
    · cases hd
    · rename_i hne0
      match i with
      | 0 =>
        simp only [List.getElem?_cons_zero, Option.some.injEq] at hi
        subst hi
        exact absurd hh (by simpa using hne0)
      | Nat.succ i =>
        simp only [List.getElem?_cons_succ] at hi
        rw [Bool.or_eq_true] at hd
        rcases hd with h0 | hrest
        · exact ⟨0, by omega, by simp [beq_iff_eq.mp h0]⟩
        · obtain ⟨j, hj, hg⟩ := ih hrest i e hi hh
          exact ⟨j + 1, by omega, by simpa using hg⟩

/-- In a list with no handoff effect, the handoff obligation holds
vacuously. -/
theorem no_handoff_case {fx : List Effect}
    (hnh : ∀ e ∈ fx, isHandoff e = false) {r : Bool} :
    ∀ (i : Nat) (e : Effect), fx[i]? = some e → isHandoff e = true →
      r = false ∧ ∃ j, j < i ∧ fx[j]? = some Effect.unregisterL := by
  intro i e hi hh
  rw [hnh e (List.getElem?_mem hi)] at hh
  cases hh

/-- A successful `toggleIfMoved` produces no effect or a single toggle. -/
theorem toggleIfMoved_ok_shape (u : SessionState) (fx1 : List Effect)
    (h : toggleIfMoved u = .ok fx1) :
    fx1 = [] ∨ ∃ c, fx1 = [Effect.toggle c] := by
  unfold toggleIfMoved at h
  split at h
  · cases hc : u.currentButton with
    | none => simp only [hc] at h; exact Except.noConfusion h
    | some c =>
      simp only [hc, Except.ok.injEq] at h
      right
      exact ⟨c, h.symm⟩
  · simp only [Except.ok.injEq] at h
    left
    exact h.symm

/-- A successful `loop` either exits via the loop limit — unregistering and
then calling `cb` — or performs a `step` on a non-empty button. -/
theorem loop_ok_cases (cfg : Config) (now : Int) (s : SessionState) :
    ∀ (fuel bIx lIx : Nat) (s' : SessionState) (fx : List Effect),
      loop cfg now s fuel bIx lIx = .ok (s', fx) →
      (s' = { s with registered := false } ∧
        fx = [Effect.unregisterL, Effect.callCb]) ∨
      (∃ b i l, cfg.menu.buttons[i]? = some b ∧ b.isEmpty = false ∧
        s' = (step cfg now s b i l).1 ∧
        fx = [Effect.toggle i, Effect.announce i]) := by
  intro fuel
  induction fuel with
  | zero =>
    intro bIx lIx s' fx h
    simp only [loop] at h
    exact Except.noConfusion h
  | succ fuel ih =>
    intro bIx lIx s' fx h
    rw [loop] at h
    split at h
    · left
      simp only [Except.ok.injEq, Prod.mk.injEq] at h
      exact ⟨h.1.symm, h.2.symm⟩
    · split at h
      · exact Except.noConfusion h
      · rename_i button hbtn
        split at h
        · exact ih _ _ _ _ h
        · rename_i hempty
          right
          simp only [Except.ok.injEq] at h
          exact ⟨button, bIx, lIx, hbtn, by simpa using hempty,
            (congrArg Prod.fst h).symm, (congrArg Prod.snd h).symm⟩

/-- **C3.** Listener discipline of one event handled by a live session:
whenever the handler's effects invoke `cb` or press a button (the two ways
control moves on, possibly into another `scanMenu`), an `unregisterL` of this
session's three listeners occurs strictly before that effect and the handler
leaves the session unregistered; a handler never registers listeners (only a
fresh `scanMenu` entry does); and the stop handler also unregisters.  Hence
chaining `scanMenu` invocations through `cb` never has two listener sets
registered at once. -/
theorem listener_discipline (cfg : Config) (now : Int) (s : SessionState)
    (ev : SessionEvent) (s' : SessionState) (fx : List Effect)
    (hreg : s.registered = true)
    (h : handle cfg now s ev = .ok (s', fx)) :
    (∀ (i : Nat) (e : Effect), fx[i]? = some e → isHandoff e = true →
        s'.registered = false ∧
        ∃ j, j < i ∧ fx[j]? = some Effect.unregisterL) ∧
    Effect.registerL ∉ fx ∧
    (ev = SessionEvent.stopEv → s'.registered = false) := by
  cases ev with
  | gazeBeginEv =>
    simp only [handle, Except.ok.injEq, Prod.mk.injEq] at h
    obtain ⟨-, hfx⟩ := h
    subst hfx
    exact ⟨no_handoff_case (by simp), by simp, by intro hc; cases hc⟩
  | gazeEndEv =>
    simp only [handle] at h
    unfold gazeEnd at h
    split at h
    · cases htog : toggleIfMoved (clearedGaze s) with
      | error a => simp only [htog] at h; exact Except.noConfusion h
      | ok fx1 =>
        simp only [htog] at h
        split at h
        · cases hpb : pressButton cfg (clearedGaze s) s.gazeButton with
          | error a => simp only [hpb] at h; exact Except.noConfusion h
          | ok out =>
            obtain ⟨s3, fx2⟩ := out
            simp only [hpb, Except.ok.injEq, Prod.mk.injEq] at h
            obtain ⟨hs, hfx⟩ := h
            obtain ⟨hstate, bIx, btn, -, -, hfx2⟩ :=
              pressButton_ok_parts _ _ _ _ _ hpb
            subst hs
            subst hfx
            subst hfx2
            refine ⟨?_, ?_, by intro hc; cases hc⟩
            · intro i e hi hh
              refine ⟨by rw [hstate], ?_⟩
              refine disciplined_spec _ ?_ i e hi hh
              rcases toggleIfMoved_ok_shape _ _ htog with h1 | ⟨c, h1⟩ <;>
                subst h1 <;> split <;> simp [disciplined, isHandoff]
            · rcases toggleIfMoved_ok_shape _ _ htog with h1 | ⟨c, h1⟩ <;>
                subst h1 <;> split <;> simp
        · simp only [Except.ok.injEq, Prod.mk.injEq] at h
          obtain ⟨hs, hfx⟩ := h
          subst hfx
          refine ⟨?_, ?_, by intro hc; cases hc⟩
          · intro i e hi hh
            refine ⟨by rw [← hs], ?_⟩
            refine disciplined_spec _ ?_ i e hi hh
            rcases toggleIfMoved_ok_shape _ _ htog with h1 | ⟨c, h1⟩ <;>
              subst h1 <;> simp [disciplined, isHandoff]
          · rcases toggleIfMoved_ok_shape _ _ htog with h1 | ⟨c, h1⟩ <;>
              subst h1 <;> simp
    · simp only [Except.ok.injEq, Prod.mk.injEq] at h
      obtain ⟨-, hfx⟩ := h
      subst hfx
      exact ⟨no_handoff_case (by simp), by simp, by intro hc; cases hc⟩
  | stopEv =>
    simp only [handle] at h
    unfold pressStop at h
    cases hc : s.currentButton with
    | none => simp only [hc] at h; exact Except.noConfusion h
    | some c =>
      simp only [hc, Except.ok.injEq, Prod.mk.injEq] at h
      obtain ⟨hs, hfx⟩ := h
      subst hfx
      refine ⟨no_handoff_case (by simp [isHandoff]), by simp, fun _ => ?_⟩
      rw [← hs]
  | timerFires tid =>
    simp only [handle] at h
    split at h
    · simp only [Except.ok.injEq, Prod.mk.injEq] at h
      obtain ⟨-, hfx⟩ := h
      subst hfx
      exact ⟨no_handoff_case (by simp), by simp, by intro hc; cases hc⟩
    · rename_i t hfind
      cases hk : t.kind with
      | longGaze =>
        rw [hk] at h
        simp only [fireTimer, Except.ok.injEq, Prod.mk.injEq] at h
        obtain ⟨-, hfx⟩ := h
        subst hfx
        exact ⟨no_handoff_case (by simp [isHandoff]), by simp,
          by intro hc; cases hc⟩
      | stepNext b l =>
        rw [hk] at h
        simp only [fireTimer] at h
        cases hl : loop cfg now
            { s with pending := s.pending.filter (fun u => u.tid ≠ tid) }
            cfg.fuel (nextButton cfg.menu b) (nextLoop cfg.menu b l) with
        | error a => simp only [hl] at h; exact Except.noConfusion h
        | ok out =>
          obtain ⟨sl, fxl⟩ := out
          simp only [hl, Except.ok.injEq, Prod.mk.injEq] at h
          obtain ⟨hs, hfx⟩ := h
          subst hfx
          rcases loop_ok_cases _ _ _ _ _ _ _ _ hl with
            ⟨hsl, hfxl⟩ | ⟨b', i, l', -, -, hsl, hfxl⟩ <;> subst hfxl
          · refine ⟨?_, by simp, by intro hc; cases hc⟩
            intro i e hi hh
            refine ⟨by rw [← hs, hsl], ?_⟩
            exact disciplined_spec _ (by simp [disciplined, isHandoff])
              i e hi hh
          · exact ⟨no_handoff_case (by simp [isHandoff]), by simp,
              by intro hc; cases hc⟩

/-- The session state reached by the long-gaze exit of `exS1` at time 2500
(used by the C3 witness). -/
def exSDone : SessionState :=
  { currentButton := some 0, gazeButton := some 0, startTime := some 0,
    stepTimer := some 0, longGazeTimer := some 1, registered := false,
    pending := [], nextId := 2 }

/-- Witness for C3: the long-gaze exit of session `exS1` (gesture-end at
2500 handled by `handle`) emits `[unregisterL, callCb]` — the `cb` at index
1 has the unregistration at index 0 before it, the session ends
unregistered, and no registration is emitted. -/
theorem listener_discipline_witness :
    (∀ (i : Nat) (e : Effect),
        [Effect.unregisterL, Effect.callCb][i]? = some e →
        isHandoff e = true →
        exSDone.registered = false ∧
        ∃ j, j < i ∧
          [Effect.unregisterL, Effect.callCb][j]? = some Effect.unregisterL) ∧
    Effect.registerL ∉ [Effect.unregisterL, Effect.callCb] ∧
    (SessionEvent.gazeEndEv = SessionEvent.stopEv →
        exSDone.registered = false) :=
  listener_discipline exCfg 2500 exS1 .gazeEndEv exSDone
    [Effect.unregisterL, Effect.callCb] rfl (by rfl)

/-- A `timerFires` event (a step advance of the sweep, or the long-gaze
warning beep) never changes `gazeButton` or `startTime`, and keeps
`currentButton` defined once it is defined. -/
theorem timerFires_preserves (cfg : Config) (now : Int) (s : SessionState)
    (tid : Nat) (s' : SessionState) (fx : List Effect)
    (h : handle cfg now s (.timerFires tid) = .ok (s', fx)) :
    s'.gazeButton = s.gazeButton ∧ s'.startTime = s.startTime ∧
    (s.currentButton.isSome = true → s'.currentButton.isSome = true) := by
  simp only [handle] at h
  split at h
  · simp only [Except.ok.injEq, Prod.mk.injEq] at h
    obtain ⟨hs, -⟩ := h
    rw [← hs]
    exact ⟨rfl, rfl, id⟩
  · rename_i t hfind
    cases hk : t.kind with
    | longGaze =>
      rw [hk] at h
      simp only [fireTimer, Except.ok.injEq, Prod.mk.injEq] at h
      obtain ⟨hs, -⟩ := h
      rw [← hs]
      exact ⟨rfl, rfl, id⟩
    | stepNext b l =>
      rw [hk] at h
      simp only [fireTimer] at h
      cases hl : loop cfg now
          { s with pending := s.pending.filter (fun u => u.tid ≠ tid) }
          cfg.fuel (nextButton cfg.menu b) (nextLoop cfg.menu b l) with
      | error a => simp only [hl] at h; exact Except.noConfusion h
      | ok out =>
        obtain ⟨sl, fxl⟩ := out
        simp only [hl, Except.ok.injEq, Prod.mk.injEq] at h
        obtain ⟨hs, -⟩ := h
        subst hs
        rcases loop_ok_cases _ _ _ _ _ _ _ _ hl with
          ⟨hsl, -⟩ | ⟨b', i, l', -, -, hsl, -⟩ <;> rw [hsl]
        · exact ⟨rfl, rfl, id⟩
        · exact ⟨rfl, rfl, fun _ => rfl⟩

/-- Timeout expiries alone never change `gazeButton` or `startTime`, and
keep `currentButton` defined. -/
theorem advances_preserves (cfg : Config) {s s' : SessionState}
    (h : Advances cfg s s') :
    s'.gazeButton = s.gazeButton ∧ s'.startTime = s.startTime ∧
    (s.currentButton.isSome = true → s'.currentButton.isSome = true) := by
  induction h with
  | refl s => exact ⟨rfl, rfl, id⟩
  | fire s s1 s2 now tid fx hstep hrest ih =>
    obtain ⟨h1, h2, h3⟩ := timerFires_preserves _ _ _ _ _ _ hstep
    exact ⟨ih.1.trans h1, ih.2.1.trans h2, fun hc => ih.2.2 (h3 hc)⟩

/-- **C1.** A short gaze (`SHORT_GAZE_TIME ≤ elapsed < LONG_GAZE_TIME`)
activates exactly the button that was under point when the gesture began:
after `gazeBegin` records the button under point, the sweep may advance any
number of times (timeout expiries), and the gesture-end handler still emits
exactly one press — of the recorded `gazeButton`, with the continuation
`makeButtonCallback` builds for it — no matter where the highlight moved. -/
theorem short_gaze_presses_gaze_button (cfg : Config) (s s2 s3 : SessionState)
    (now0 now : Int) (c : Nat) (btn : Button) (fx : List Effect)
    (hc : s.currentButton = some c)
    (hbtn : cfg.menu.buttons[c]? = some btn)
    (hadv : Advances cfg (gazeBegin now0 s) s2)
    (hreg : s2.registered = true)
    (hlo : SHORT_GAZE_TIME ≤ now - now0) (hhi : now - now0 < LONG_GAZE_TIME)
    (hend : gazeEnd cfg now s2 = .ok (s3, fx)) :
    fx.countP isPressE = 1 ∧
    Effect.press c (makeButtonCallback cfg.reg cfg.menu btn) ∈ fx := by
  obtain ⟨hgaze, hstart, hcur⟩ := advances_preserves cfg hadv
  have hgaze2 : s2.gazeButton = some c := by
    rw [hgaze]; simp [gazeBegin, hc]
  have hstart2 : s2.startTime = some now0 := by
    rw [hstart]; simp [gazeBegin]
  obtain ⟨c', hc'⟩ := Option.isSome_iff_exists.mp (hcur (by simp [gazeBegin, hc]))
  have hge : optGe (Option.map (fun t0 => now - t0) s2.startTime)
      SHORT_GAZE_TIME = true := by
    rw [hstart2]
    simp only [Option.map_some', optGe, decide_eq_true_eq]
    exact hlo
  have hlt : optLt (Option.map (fun t0 => now - t0) s2.startTime)
      LONG_GAZE_TIME = true := by
    rw [hstart2]
    simp only [Option.map_some', optLt, decide_eq_true_eq]
    exact hhi
  unfold gazeEnd at hend
  rw [hge, hlt] at hend
  simp only [eq_self_iff_true, if_true] at hend
  cases htog : toggleIfMoved (clearedGaze s2) with
  | error a => rw [htog] at hend; exact Except.noConfusion hend
  | ok fx1 =>
    rw [htog] at hend
    cases hpb : pressButton cfg (clearedGaze s2) s2.gazeButton with
    | error a => rw [hpb] at hend; exact Except.noConfusion hend
    | ok out =>
      obtain ⟨s4, fx2⟩ := out
      rw [hpb] at hend
      simp only [Except.ok.injEq, Prod.mk.injEq] at hend
      obtain ⟨-, hfx⟩ := hend
      obtain ⟨-, bIx, btn2, hbeq, hbtn', hfx2⟩ := pressButton_ok_parts _ _ _ _ _ hpb
      have hbIx : c = bIx := by
        rw [hgaze2] at hbeq
        exact Option.some.inj hbeq
      subst hbIx
      have hbtn'' : btn2 = btn := by
        rw [hbtn] at hbtn'
        exact (Option.some.inj hbtn').symm
      subst hbtn''
      subst hfx2
      subst hfx
      constructor
      · rcases toggleIfMoved_ok_shape _ _ htog with h1 | ⟨d, h1⟩ <;> subst h1 <;>
          split <;> simp [List.countP_cons, isPressE]
      · simp

/-- Witness for C1: the gesture begins at time 0 on button 0 of session
`exS`; the step timeout fires at 1000, advancing the highlight to button 1;
the gesture ends at 1500 (a 1500 ms short gaze) — and button 0, not
button 1, is pressed, exactly once. -/
theorem short_gaze_presses_gaze_button_witness :
    ([Effect.toggle 1, Effect.unregisterL,
      Effect.press 0 (ButtonCallback.plain true)] : List Effect).countP
        isPressE = 1 ∧
    Effect.press 0 (makeButtonCallback exCfg.reg exCfg.menu letterB) ∈
      [Effect.toggle 1, Effect.unregisterL,
       Effect.press 0 (ButtonCallback.plain true)] :=
  short_gaze_presses_gaze_button exCfg exS exS2
    { currentButton := some 1, gazeButton := some 0, startTime := some 0,
      stepTimer := some 2, longGazeTimer := some 1, registered := false,
      pending := [], nextId := 3 }
    0 1500 0 letterB
    [Effect.toggle 1, Effect.unregisterL,
     Effect.press 0 (ButtonCallback.plain true)]
    rfl (by decide)
    (Advances.fire _ _ _ 1000 0
      [Effect.toggle 0, Effect.toggle 1, Effect.announce 1]
      (by rfl) (Advances.refl _))
    rfl (by decide) (by decide) (by rfl)

/-! ## Lemmas about the gesture-free sweep -/

/-- An index strictly inside a `takeWhile` run satisfies the predicate. -/
theorem takeWhile_getElem?_pos {α : Type} (p : α → Bool) :
    ∀ (l : List α) (i : Nat), i < (l.takeWhile p).length →
      ∃ b, l[i]? = some b ∧ p b = true := by
  intro l
  induction l with
  | nil => intro i h; simp [List.takeWhile] at h
  | cons a l ih =>
    intro i h
    cases hp : p a with
    | false => simp [List.takeWhile_cons, hp] at h
    | true =>
      simp only [List.takeWhile_cons, hp, if_true, List.length_cons] at h
      match i with
      | 0 => exact ⟨a, by simp, hp⟩
      | Nat.succ i =>
        obtain ⟨b, hb, hpb⟩ := ih i (by omega)
        exact ⟨b, by simpa using hb, hpb⟩

/-- The element just past a proper `takeWhile` run falsifies the
predicate. -/
theorem takeWhile_getElem?_stop {α : Type} (p : α → Bool) :
    ∀ (l : List α), (l.takeWhile p).length < l.length →
      ∃ b, l[(l.takeWhile p).length]? = some b ∧ p b = false := by
  intro l
  induction l with
  | nil => intro h; simp at h
  | cons a l ih =>
    intro h
    cases hp : p a with
    | false => exact ⟨a, by simp [List.takeWhile_cons, hp], hp⟩
    | true =>
      simp only [List.takeWhile_cons, hp, if_true, List.length_cons] at h ⊢
      obtain ⟨b, hb, hpb⟩ := ih (by omega)
      exact ⟨b, by simpa using hb, hpb⟩

theorem visitsFrom_stop (k i : Nat) : visitsFrom k i N_LOOPS = [] := by
  rw [visitsFrom]
  simp

theorem visitsFrom_skip (k l : Nat) (hl : l < N_LOOPS) :
    visitsFrom k k l = visitsFrom k 0 (l + 1) := by
  rw [visitsFrom]
  simp [hl]

theorem visitsFrom_cons (k i l : Nat) (hik : i < k) (hl : l < N_LOOPS) :
    visitsFrom k i l = (i, l) :: visitsFrom k (i + 1) l := by
  conv_lhs => rw [visitsFrom]
  conv_rhs => rw [visitsFrom]
  rw [if_pos hl, if_pos hl]
  have h5 : k - i = (k - (i + 1)) + 1 := by omega
  rw [h5, List.range'_succ]
  simp

/-- Master lemma for the gesture-free sweep: from any in-range reachable
configuration it returns, with the visit list predicted by `visitsFrom`
over the menu's leading non-empty run, a single `cb()` invocation, and the
loop-limit exit at `loopIx = N_LOOPS`. -/
theorem noGestureSweep_spec (menu : Menu) (hn : 1 ≤ menu.buttons.length) :
    ∀ (fuel buttonIx loopIx : Nat),
      buttonIx < menu.buttons.length →
      buttonIx ≤ leadingLen menu →
      loopIx ≤ N_LOOPS →
      (N_LOOPS - loopIx) * menu.buttons.length +
          (menu.buttons.length - buttonIx) ≤ fuel →
      noGestureSweep menu fuel buttonIx loopIx =
        .ok ⟨visitsFrom (leadingLen menu) buttonIx loopIx, 1, N_LOOPS⟩ := by
  have hkle : leadingLen menu ≤ menu.buttons.length := by
    simp only [leadingLen]
    exact (List.takeWhile_sublist _).length_le
  intro fuel
  induction fuel with
  | zero =>
    intro bIx lIx h1 h2 h3 h4
    exfalso
    omega
  | succ fuel ih =>
    intro bIx lIx h1 h2 h3 h4
    rw [noGestureSweep]
    by_cases hl : lIx = N_LOOPS
    · subst hl
      rw [if_pos (by simp [isLoopOver])]
      rw [visitsFrom_stop]
    · have hlt : lIx < N_LOOPS := by omega
      have hid : (N_LOOPS - lIx) * menu.buttons.length
          = (N_LOOPS - (lIx + 1)) * menu.buttons.length +
            menu.buttons.length := by
        have h5 : N_LOOPS - lIx = (N_LOOPS - (lIx + 1)) + 1 := by omega
        rw [h5, Nat.succ_mul]
      rw [if_neg (by simp [isLoopOver, hl])]
      by_cases hk : bIx < leadingLen menu
      · -- inside the non-empty leading run: a step is taken
        obtain ⟨b, hb, hpb⟩ :=
          takeWhile_getElem?_pos (fun b => !b.isEmpty) menu.buttons bIx
            (by simpa [leadingLen] using hk)
        have hbe : b.isEmpty = false := by simpa using hpb
        simp only [hb, hbe, Bool.false_eq_true, if_false]
        by_cases hlast : bIx = menu.buttons.length - 1
        · -- last index: wrap to 0, increment the loop counter
          have hnb : nextButton menu bIx = 0 := by
            have h6 : bIx + 1 = menu.buttons.length := by omega
            rw [nextButton, Menu.getNButtons, h6, Nat.mod_self]
          have hlast' : isLastButton menu bIx = true := by
            simp only [isLastButton, Menu.getNButtons, beq_iff_eq]
            omega
          have hnl : nextLoop menu bIx lIx = lIx + 1 := by
            rw [nextLoop, hlast']
            simp
          rw [hnb, hnl, ih 0 (lIx + 1) (by omega) (by omega) (by omega)
            (by omega)]
          rw [visitsFrom_cons _ _ _ hk hlt]
          have h7 : bIx + 1 = leadingLen menu := by omega
          rw [h7, visitsFrom_skip _ _ hlt]
        · -- not the last index: advance to the next button, same loop
          have hnb : nextButton menu bIx = bIx + 1 := by
            rw [nextButton, Menu.getNButtons]
            exact Nat.mod_eq_of_lt (by omega)
          have hlast' : isLastButton menu bIx = false := by
            simp only [isLastButton, Menu.getNButtons, beq_eq_false_iff_ne,
              ne_eq]
            omega
          have hnl : nextLoop menu bIx lIx = lIx := by
            rw [nextLoop, hlast']
            simp
          rw [hnb, hnl, ih (bIx + 1) lIx (by omega) (by omega) h3 (by omega)]
          rw [visitsFrom_cons _ _ _ hk hlt]
      · -- at the first empty button: restart at 0, increment the counter
        have hbk : bIx = leadingLen menu := by omega
        have hklt : leadingLen menu < menu.buttons.length := by omega
        obtain ⟨b, hb, hpb⟩ :=
          takeWhile_getElem?_stop (fun b => !b.isEmpty) menu.buttons
            (by simpa [leadingLen] using hklt)
        have hbe : b.isEmpty = true := by simpa using hpb
        have hb' : menu.buttons[leadingLen menu]? = some b := by
          simpa [leadingLen] using hb
        rw [hbk]
        simp only [hb', hbe, if_true]
        rw [ih 0 (lIx + 1) (by omega) (by omega) (by omega) (by omega)]
        rw [visitsFrom_skip _ _ hlt]

/-- **C2 counterexample.** The claim quantifies over *every* menu, but a
menu with no buttons at all makes `loop(0, 0)` read
`menu.getButtons()[0]`, which is `undefined`, and then throw a `TypeError`
on `button.isEmpty()`: the sweep crashes before any pass completes and `cb`
is never invoked — it neither "completes after exactly N_LOOPS passes" nor
"invokes cb exactly once". -/
theorem sweep_crashes_on_buttonless_menu :
    noGestureSweep noButtonMenu 9 0 0 = .error .crash ∧
    noButtonMenu.buttons.length = 0 :=
  ⟨rfl, rfl⟩

/-- **C2 (amended).** For every menu with **at least one button**, the
gesture-free, stop-free sweep terminates (for any fuel of at least
`(N_LOOPS + 1) · n` loop entries): it exits through the `isLoopOver`
loop-limit branch with the loop counter at exactly `N_LOOPS = 2` — having
been incremented on each of the two passes, also when every button is empty
— and invokes `cb` exactly once (`cbCalls = 1`). -/
theorem sweep_loop_limit_cb_once (menu : Menu) (hn : 1 ≤ menu.buttons.length)
    (fuel : Nat) (hf : (N_LOOPS + 1) * menu.buttons.length ≤ fuel) :
    noGestureSweep menu fuel 0 0 =
      .ok ⟨visitsFrom (leadingLen menu) 0 0, 1, N_LOOPS⟩ := by
  have hm : (N_LOOPS - 0) * menu.buttons.length + (menu.buttons.length - 0)
      = (N_LOOPS + 1) * menu.buttons.length := by
    rw [Nat.sub_zero, Nat.sub_zero, Nat.succ_mul]
  exact noGestureSweep_spec menu hn fuel 0 0 (by omega) (by omega)
    (by omega) (by omega)

/-- Witness for the amended C2: the two-button menu `exMenu` with fuel 6
completes with two full passes, one `cb()` call, and the loop-limit exit. -/
theorem sweep_loop_limit_cb_once_witness :
    noGestureSweep exMenu 6 0 0 =
      .ok ⟨visitsFrom (leadingLen exMenu) 0 0, 1, N_LOOPS⟩ :=
  sweep_loop_limit_cb_once exMenu (by decide) 6 (by decide)

/-- **C4 counterexample.** In `emptyFirstMenu` an empty button (index 0)
precedes a non-empty one (index 1); the gesture-free sweep visits *nothing*
— `loop` restarts at index 0 with the loop counter incremented whenever it
meets an empty button, so index 1 is never reached — contradicting "each
loop visits every non-empty item ... including menus in which an empty item
precedes non-empty items". -/
theorem sweep_misses_nonEmpty_after_empty :
    noGestureSweep emptyFirstMenu 12 0 0 =
      .ok ⟨[], 1, 2⟩ ∧
    emptyFirstMenu.buttons[1]? = some letterB ∧
    letterB.isEmpty = false :=
  ⟨rfl, rfl, rfl⟩

/-- **C4 (amended).** During a gesture-free, stop-free sweep, each loop
visits, in menu order exactly once, the buttons of the menu's *leading
non-empty run* (every non-empty button when no button is empty; encountering
the first empty button restarts the scan at index 0 with the loop counter
incremented); the loop counter also increments on wraparound past the last
index, and the sweep ends after `N_LOOPS = 2` loops through the loop-limit
exit with no selection (`cb` once, nothing pressed). -/
theorem sweep_visits_leading_run (menu : Menu) (hn : 1 ≤ menu.buttons.length)
    (fuel : Nat) (hf : (N_LOOPS + 1) * menu.buttons.length ≤ fuel) :
    ∃ out : SweepOut, noGestureSweep menu fuel 0 0 = .ok out ∧
      out.visits =
        ((List.range (leadingLen menu)).map (fun i => (i, 0))) ++
        ((List.range (leadingLen menu)).map (fun i => (i, 1))) ∧
      out.cbCalls = 1 ∧ out.finalLoopIx = N_LOOPS ∧
      (∀ i, i < leadingLen menu → ∃ b, menu.buttons[i]? = some b ∧
          b.isEmpty = false) := by
  have hm : (N_LOOPS - 0) * menu.buttons.length + (menu.buttons.length - 0)
      = (N_LOOPS + 1) * menu.buttons.length := by
    rw [Nat.sub_zero, Nat.sub_zero, Nat.succ_mul]
  refine ⟨_, noGestureSweep_spec menu hn fuel 0 0 (by omega) (by omega)
    (by omega) (by omega), ?_, rfl, rfl, ?_⟩
  · show visitsFrom (leadingLen menu) 0 0 = _
    rw [visitsFrom]
    rw [visitsFrom]
    rw [visitsFrom]
    simp [N_LOOPS, List.range_eq_range']
  · intro i hi
    obtain ⟨b, hb, hpb⟩ := takeWhile_getElem?_pos (fun b => !b.isEmpty)
      menu.buttons i (by simpa [leadingLen] using hi)
    exact ⟨b, hb, by simpa using hpb⟩

/-- Intermediate machine states of the gesture-free run of `exMenu` (after
the announcements of button 1 of pass 0, button 0 of pass 1 and button 1 of
pass 1 respectively); used by the consistency check below. -/
def exM1 : SessionState :=
  { currentButton := some 1, gazeButton := none, startTime := none,
    stepTimer := some 1, longGazeTimer := none, registered := true,
    pending := [⟨1, 2000, .stepNext 1 0⟩], nextId := 2 }

def exM2 : SessionState :=
  { currentButton := some 0, gazeButton := none, startTime := none,
    stepTimer := some 2, longGazeTimer := none, registered := true,
    pending := [⟨2, 3000, .stepNext 0 1⟩], nextId := 3 }

def exM3 : SessionState :=
  { currentButton := some 1, gazeButton := none, startTime := none,
    stepTimer := some 3, longGazeTimer := none, registered := true,
    pending := [⟨3, 4000, .stepNext 1 1⟩], nextId := 4 }

/-- Consistency of the `noGestureSweep` composition with the event machine
on the sample menu: `scanMenu`'s prologue registers and announces button 0,
each armed step timeout in turn un-highlights its button and announces the
next visit — buttons 0, 1 on pass 0 and 0, 1 on pass 1, exactly the visit
list `noGestureSweep` predicts — and the final expiry exits through the
loop limit, unregistering and calling `cb` once. -/
theorem machine_agrees_with_sweep_on_exMenu :
    scanMenuStart exCfg 0 =
      .ok (exS, [Effect.registerL, Effect.toggle 0, Effect.announce 0]) ∧
    handle exCfg 1000 exS (.timerFires 0) =
      .ok (exM1, [Effect.toggle 0, Effect.toggle 1, Effect.announce 1]) ∧
    handle exCfg 2000 exM1 (.timerFires 1) =
      .ok (exM2, [Effect.toggle 1, Effect.toggle 0, Effect.announce 0]) ∧
    handle exCfg 3000 exM2 (.timerFires 2) =
      .ok (exM3, [Effect.toggle 0, Effect.toggle 1, Effect.announce 1]) ∧
    handle exCfg 4000 exM3 (.timerFires 3) =
      .ok ({ exM3 with registered := false, pending := [] },
           [Effect.toggle 1, Effect.unregisterL, Effect.callCb]) ∧
    noGestureSweep exMenu 6 0 0 =
      .ok ⟨[(0, 0), (1, 0), (0, 1), (1, 1)], 1, 2⟩ :=
  ⟨rfl, rfl, rfl, rfl, rfl, rfl⟩

/-- Witness for the amended C4: on `emptyFirstMenu` (leading run empty) the
sweep's visit list is the empty double pass; on inspection the obligations
all hold at fuel 6. -/
theorem sweep_visits_leading_run_witness :
    ∃ out : SweepOut, noGestureSweep emptyFirstMenu 6 0 0 = .ok out ∧
      out.visits =
        ((List.range (leadingLen emptyFirstMenu)).map (fun i => (i, 0))) ++
        ((List.range (leadingLen emptyFirstMenu)).map (fun i => (i, 1))) ∧
      out.cbCalls = 1 ∧ out.finalLoopIx = N_LOOPS ∧
      (∀ i, i < leadingLen emptyFirstMenu →
          ∃ b, emptyFirstMenu.buttons[i]? = some b ∧ b.isEmpty = false) :=
  sweep_visits_leading_run emptyFirstMenu (by decide) 6 (by decide)

end GazeDetector
